import Mathlib

/-!
Shallow embedding of the virtio-scsi device backend
(src/devices/src/virtio/scsi/device.rs and constants.rs) together with
theorems settling the specification claims about it.

Machine integers (u8/u16/u32/u64/usize) are modelled as Nat; wherever the
source can overflow or truncate, the reduction is written explicitly.
The u32 field resid of virtio_scsi_cmd_resp is stored in the source after a
to_be() conversion, which fixes its in-memory representation to big-endian
byte order on every host; the field is therefore modelled by its 4-byte
in-memory representation (a list of bytes), which is endianness-free.
-/

/-! ## Constants from src/devices/src/virtio/scsi/constants.rs -/

/-- SAM status code GOOD: completion of the command without error. -/
def GOOD : Nat := 0x00

/-- SAM status code CHECK_CONDITION: sense data has been delivered. -/
def CHECK_CONDITION : Nat := 0x02

/-- Sense key MEDIUM_ERROR. -/
def MEDIUM_ERROR : Nat := 0x03

/-- Sense key ILLEGAL_REQUEST. -/
def ILLEGAL_REQUEST : Nat := 0x05

/-! ## Constants from src/devices/src/virtio/scsi/device.rs -/

/-- Should have one controlq, one eventq, and at least one request queue. -/
def MINIMUM_NUM_QUEUES : Nat := 3

/-- Max channel should be 0. -/
def DEFAULT_MAX_CHANNEL : Nat := 0

/-- Max target should be less than or equal to 255. -/
def DEFAULT_MAX_TARGET : Nat := 255

/-- Max lun should be less than or equal to 16383. -/
def DEFAULT_MAX_LUN : Nat := 16383

/-- Default size of each virtqueue. -/
def DEFAULT_QUEUE_SIZE : Nat := 256

/-- The maximum number of linked commands. -/
def MAX_CMD_PER_LUN : Nat := 128

/-- Maximum transfer size hint, 0xffff sectors. -/
def MAX_SECTORS : Nat := 0xffff

/-! ## Constants of the external virtio_sys crate (values fixed by the
virtio v1.2 specification referenced by the source). -/

/-- virtio response code for a successfully processed request. -/
def VIRTIO_SCSI_S_OK : Nat := 0

/-- virtio response code for a request addressed to a nonexistent target. -/
def VIRTIO_SCSI_S_BAD_TARGET : Nat := 3

/-- Default size of the sense byte array of virtio_scsi_cmd_resp. -/
def VIRTIO_SCSI_SENSE_DEFAULT_SIZE : Nat := 96

/-- Default size of the CDB that the driver writes. -/
def VIRTIO_SCSI_CDB_DEFAULT_SIZE : Nat := 32

/-- Byte size of the external struct virtio_scsi_event (le32 event,
u8 lun 8 bytes, le32 reason). -/
def VIRTIO_SCSI_EVENT_SIZE : Nat := 16

/-- Byte size of struct virtio_scsi_cmd_resp: u32 sense_len, u32 resid,
u16 status_qualifier, u8 status, u8 response, u8 sense 96 bytes. -/
def SIZE_OF_VIRTIO_SCSI_CMD_RESP : Nat := 108

/-! ## Wire response structure -/

/-- Model of the u32 conversion resid.try_into().unwrap_or(u32::MAX) of the
source: a usize residual saturated into u32 range. -/
def satU32 (n : Nat) : Nat := if n < 2 ^ 32 then n else 2 ^ 32 - 1

/-- In-memory byte representation of a u32 after the to_be() conversion of
the source: the big-endian bytes of the value. -/
def u32BeBytes (x : Nat) : List Nat :=
  [x / 2 ^ 24 % 256, x / 2 ^ 16 % 256, x / 2 ^ 8 % 256, x % 256]

/-- Model of struct virtio_scsi_cmd_resp. The resid field is modelled by its
4-byte in-memory representation (see the file comment). -/
structure VirtioScsiCmdResp where
  sense_len : Nat
  resid : List Nat
  status_qualifier : Nat
  status : Nat
  response : Nat
  sense : List Nat
deriving DecidableEq, Repr

/-- Model of the const fn virtio_scsi_cmd_resp_ok of the source. -/
def virtio_scsi_cmd_resp_ok : VirtioScsiCmdResp :=
  { sense_len := 0
    resid := [0, 0, 0, 0]
    status_qualifier := 0
    status := GOOD
    response := VIRTIO_SCSI_S_OK
    sense := List.replicate (VIRTIO_SCSI_SENSE_DEFAULT_SIZE) 0 }

/-- Model of Default::default() for the zerocopy struct virtio_scsi_cmd_resp:
every byte zero. -/
def virtio_scsi_cmd_resp_default : VirtioScsiCmdResp :=
  { sense_len := 0
    resid := [0, 0, 0, 0]
    status_qualifier := 0
    status := 0
    response := 0
    sense := List.replicate (VIRTIO_SCSI_SENSE_DEFAULT_SIZE) 0 }

/-! ## Sense codec (struct Sense and Sense::as_bytes of the source) -/

/-- Sense code representation: key, additional sense code, additional sense
code qualifier. -/
structure Sense where
  key : Nat
  asc : Nat
  ascq : Nat
deriving DecidableEq, Repr

/-- Model of Sense::as_bytes: converts to (sense bytes, actual size of the
sense data), in fixed format when the flag is true and descriptor format
otherwise. Mirrors the source's assignments into a zeroed 96-byte array. -/
def Sense.as_bytes (s : Sense) (fixed : Bool) : List Nat × Nat :=
  let sense_data := List.replicate (VIRTIO_SCSI_SENSE_DEFAULT_SIZE) 0
  if fixed then
    ((((((sense_data.set 0 0x70).set 2 s.key).set 7 10).set 12 s.asc).set 13
        s.ascq),
      18)
  else
    (((((sense_data.set 0 0x72).set 1 s.key).set 2 s.asc).set 3 s.ascq), 8)

/-- Modelled from the spec: the fixed-format sense layout places the key at
byte 2, the additional sense code at byte 12 and its qualifier at byte 13;
decoding by that layout reads those positions back. -/
def decodeFixedSense (bytes : List Nat) : Sense :=
  { key := bytes.getD 2 0, asc := bytes.getD 12 0, ascq := bytes.getD 13 0 }

/-! ## ExecuteError and its response conversion -/

/-- Model of enum ExecuteError. Payloads that are opaque host values
(io::Error, disk::Error) are dropped; numeric payloads are kept. -/
inductive ExecuteError where
  | InvalidField : ExecuteError
  | LbaOutOfRange (length : Nat) (sector : Nat) (max_lba : Nat) : ExecuteError
  | Read : ExecuteError
  | ReadCommand : ExecuteError
  | ReadIo (resid : Nat) : ExecuteError
  | ReadOnly : ExecuteError
  | Unsupported (opcode : Nat) : ExecuteError
  | Write : ExecuteError
  | WriteIo (resid : Nat) : ExecuteError
deriving DecidableEq, Repr

/-- Final step of ExecuteError::as_resp for the sense-producing variants:
fixed-format sense bytes with status CHECK_CONDITION over the ok response. -/
def senseResp (s : Sense) : VirtioScsiCmdResp :=
  let p := s.as_bytes true
  { virtio_scsi_cmd_resp_ok with
    sense_len := p.2
    sense := p.1
    status := CHECK_CONDITION }

/-- Model of ExecuteError::as_resp: the fixed lookup from error variants to
sense triples, except that ReadIo and WriteIo keep the ok response and only
set resid (saturated to u32, stored big-endian). -/
def ExecuteError.as_resp : ExecuteError → VirtioScsiCmdResp
  | .ReadIo r | .WriteIo r =>
      { virtio_scsi_cmd_resp_ok with resid := u32BeBytes (satU32 r) }
  | .Read | .ReadCommand =>
      senseResp { key := MEDIUM_ERROR, asc := 0x11, ascq := 0x00 }
  | .Write => senseResp { key := MEDIUM_ERROR, asc := 0x0c, ascq := 0x00 }
  | .InvalidField =>
      senseResp { key := ILLEGAL_REQUEST, asc := 0x24, ascq := 0x00 }
  | .Unsupported _ =>
      senseResp { key := ILLEGAL_REQUEST, asc := 0x20, ascq := 0x00 }
  | .ReadOnly | .LbaOutOfRange _ _ _ =>
      senseResp { key := ILLEGAL_REQUEST, asc := 0x21, ascq := 0x00 }

example : ExecuteError.ReadOnly.as_resp.status = CHECK_CONDITION := rfl

example : (ExecuteError.ReadIo 7).as_resp.resid = [0, 0, 0, 7] := rfl

example :
    decodeFixedSense ExecuteError.InvalidField.as_resp.sense =
      { key := ILLEGAL_REQUEST, asc := 0x24, ascq := 0 } := rfl

/-! ## Logical unit and device lifecycle -/

/-- Describes each SCSI device: maximum logical block address, block size,
whether the target is read only. -/
structure LogicalUnit where
  max_lba : Nat
  block_size : Nat
  read_only : Bool
deriving DecidableEq, Repr

/-- Model of the backing DiskFile at the interface Device::new uses: a
fallible byte-length query (get_len). -/
structure DiskFileM where
  get_len : Option Nat

/-- Modelled from the spec: get_seg_max of the block layer (not under src/)
derives a segment-count limit from the queue size; no claim constrains its
value. -/
def get_seg_max (queue_size : Nat) : Nat := queue_size - 2

/-- Model of struct Device. Host-only fields (disk image handle, executor
kind, worker threads) are omitted; the RwLock around the target only
mediates host concurrency and is dropped. -/
structure Device where
  avail_features : Nat
  queue_sizes : List Nat
  seg_max : Nat
  sense_size : Nat
  cdb_size : Nat
  target : LogicalUnit

/-- Model of Device::new. Failure of get_len propagates as none. The source
assigns the disk image's byte length directly to max_lba. -/
def Device.new (disk_image : DiskFileM) (base_features : Nat)
    (block_size : Nat) (ro : Bool) : Option Device :=
  match disk_image.get_len with
  | none => none
  | some len =>
      some
        { avail_features := base_features
          queue_sizes := List.replicate MINIMUM_NUM_QUEUES DEFAULT_QUEUE_SIZE
          seg_max := get_seg_max DEFAULT_QUEUE_SIZE
          sense_size := VIRTIO_SCSI_SENSE_DEFAULT_SIZE
          cdb_size := VIRTIO_SCSI_CDB_DEFAULT_SIZE
          target := { max_lba := len, block_size := block_size, read_only := ro } }

/-- Model of struct virtio_scsi_config, the guest-visible configuration. -/
structure VirtioScsiConfig where
  num_queues : Nat
  seg_max : Nat
  max_sectors : Nat
  cmd_per_lun : Nat
  event_info_size : Nat
  sense_size : Nat
  cdb_size : Nat
  max_channel : Nat
  max_target : Nat
  max_lun : Nat
deriving DecidableEq, Repr

/-- Model of Device::build_config_space: num_queues is the number of request
queues only, so 2 is subtracted for the control queue and the event queue. -/
def Device.build_config_space (d : Device) : VirtioScsiConfig :=
  { num_queues := d.queue_sizes.length - 2
    seg_max := d.seg_max
    max_sectors := MAX_SECTORS
    cmd_per_lun := MAX_CMD_PER_LUN
    event_info_size := VIRTIO_SCSI_EVENT_SIZE
    sense_size := d.sense_size
    cdb_size := d.cdb_size
    max_channel := DEFAULT_MAX_CHANNEL
    max_target := DEFAULT_MAX_TARGET
    max_lun := DEFAULT_MAX_LUN }

/-! ## Request processing

Command::new and Command::execute live in commands.rs, which is not under
src/; they are abstracted as parameters (a decoder from CDB bytes to an
abstract command type, and an executor on that type), so every theorem
below holds for every possible behaviour of that missing code. -/

/-- Model of struct virtio_scsi_cmd_req at the fields execute_request reads:
the 8-byte LUN address and the CDB bytes. -/
structure ReqHeader where
  lun : Fin 8 → Nat
  cdb : List Nat

/-- Model of one popped descriptor chain for request processing. header is
none when reading virtio_scsi_cmd_req from the input stream fails;
respWriteOk tells whether write_all on the response writer succeeds;
dataWritten is data_writer.bytes_written() at completion. -/
structure DescriptorChain where
  header : Option ReqHeader
  respWriteOk : Bool
  dataWritten : Nat

/-- Observable effect of processing one chain: a response written to the
chain's output stream, the chain marked used, the interrupt raised. -/
inductive ChainEvent where
  | respWrite (resp : VirtioScsiCmdResp) : ChainEvent
  | addUsed (len : Nat) : ChainEvent
  | interrupt : ChainEvent
deriving DecidableEq, Repr

/-- Model of Device::is_lun0: first byte must be 1, then the bus id (second
byte) must be 0. -/
def Device.is_lun0 (lun : Fin 8 → Nat) : Bool :=
  if lun 0 != 1 then false
  else lun 1 == 0

/-- Model of Device::execute_request. Returns the Result of the source
(bytes written into the response writer, or an ExecuteError) together with
the list of successful response writes. A failed header read yields
ExecuteError::Read; a decode error propagates before any write; a non-LUN0
address selects the bad-target response with every other field defaulted;
the chosen response is then written, failure of that write yielding
ExecuteError::Write. -/
def Device.execute_request {C : Type} (decode : List Nat → Except ExecuteError C)
    (exec : C → Except ExecuteError Unit) (chain : DescriptorChain) :
    Except ExecuteError Nat × List ChainEvent :=
  match chain.header with
  | none => (Except.error ExecuteError.Read, [])
  | some hdr =>
      let respSel : Except ExecuteError VirtioScsiCmdResp :=
        if Device.is_lun0 hdr.lun then
          match decode hdr.cdb with
          | Except.error e => Except.error e
          | Except.ok command =>
              match exec command with
              | Except.ok () => Except.ok virtio_scsi_cmd_resp_ok
              | Except.error err => Except.ok err.as_resp
        else
          Except.ok
            { virtio_scsi_cmd_resp_default with
              response := VIRTIO_SCSI_S_BAD_TARGET }
      match respSel with
      | Except.error e => (Except.error e, [])
      | Except.ok resp =>
          if chain.respWriteOk then
            (Except.ok SIZE_OF_VIRTIO_SCSI_CMD_RESP, [ChainEvent.respWrite resp])
          else (Except.error ExecuteError.Write, [])

/-- Model of process_one_request: on an execute_request error, a second
write of err.as_resp is attempted; the returned length is the bytes written
into the response writer plus those written into the data writer. -/
def process_one_request {C : Type} (decode : List Nat → Except ExecuteError C)
    (exec : C → Except ExecuteError Unit) (chain : DescriptorChain) :
    Nat × List ChainEvent :=
  match Device.execute_request decode exec chain with
  | (Except.ok n, events) => (n + chain.dataWritten, events)
  | (Except.error err, events) =>
      if chain.respWriteOk then
        (SIZE_OF_VIRTIO_SCSI_CMD_RESP + chain.dataWritten,
          events ++ [ChainEvent.respWrite err.as_resp])
      else (chain.dataWritten, events)

/-- Model of process_one_chain: process the request, then mark the chain
used with the returned length, then trigger the interrupt. -/
def process_one_chain {C : Type} (decode : List Nat → Except ExecuteError C)
    (exec : C → Except ExecuteError Unit) (chain : DescriptorChain) :
    List ChainEvent :=
  let p := process_one_request decode exec chain
  p.2 ++ [ChainEvent.addUsed p.1, ChainEvent.interrupt]

example :
    process_one_chain (fun _ => Except.ok ()) (fun _ => Except.ok ())
      { header := some { lun := ![1, 0, 0, 0, 0, 0, 0, 0], cdb := [0] },
        respWriteOk := true, dataWritten := 0 } =
      [ChainEvent.respWrite virtio_scsi_cmd_resp_ok, ChainEvent.addUsed 108,
        ChainEvent.interrupt] := rfl

example :
    (Device.execute_request (fun _ => Except.ok ()) (fun _ => Except.ok ())
        { header := some { lun := ![1, 1, 0, 0, 0, 0, 0, 0], cdb := [0] },
          respWriteOk := true, dataWritten := 0 }).2 =
      [ChainEvent.respWrite
          { virtio_scsi_cmd_resp_default with
            response := VIRTIO_SCSI_S_BAD_TARGET }] := rfl

/-! ## Claim theorems -/

/-- C1 counterexample: a Write10 against a read-only unit yields
ExecuteError::ReadOnly, and its response carries exactly the sense triple
(ILLEGAL_REQUEST, 0x21, 0x00) that the claim says is never produced for
ReadOnly; the response is even identical to the LbaOutOfRange response. -/
theorem c1_readonly_conflated_counterexample :
    ExecuteError.ReadOnly.as_resp.status = CHECK_CONDITION ∧
    decodeFixedSense ExecuteError.ReadOnly.as_resp.sense =
      { key := ILLEGAL_REQUEST, asc := 0x21, ascq := 0x00 } ∧
    ExecuteError.ReadOnly.as_resp = (ExecuteError.LbaOutOfRange 1 5 100).as_resp :=
  ⟨rfl, rfl, rfl⟩

/-- C1 amended: a ReadOnly execution error yields status CHECK_CONDITION
with sense_len 18 and the sense triple (ILLEGAL_REQUEST, 0x21, 0x00) — the
same response as every LbaOutOfRange error; the source conflates the two. -/
theorem c1_readonly_sense_amended (l s m : Nat) :
    ExecuteError.ReadOnly.as_resp.status = CHECK_CONDITION ∧
    ExecuteError.ReadOnly.as_resp.sense_len = 18 ∧
    decodeFixedSense ExecuteError.ReadOnly.as_resp.sense =
      { key := ILLEGAL_REQUEST, asc := 0x21, ascq := 0x00 } ∧
    ExecuteError.ReadOnly.as_resp = (ExecuteError.LbaOutOfRange l s m).as_resp :=
  ⟨rfl, rfl, rfl, rfl⟩

/-- C5: the mapping from ExecuteError variants to sense triples is the fixed
lookup Read/ReadCommand to (MEDIUM_ERROR, 0x11, 0x00), InvalidField to
(ILLEGAL_REQUEST, 0x24, 0x00), Unsupported to (ILLEGAL_REQUEST, 0x20, 0x00),
Write to (MEDIUM_ERROR, 0x0c, 0x00), each with status CHECK_CONDITION and
sense_len 18. -/
theorem c5_sense_lookup_table (op : Nat) :
    (decodeFixedSense ExecuteError.Read.as_resp.sense =
        { key := MEDIUM_ERROR, asc := 0x11, ascq := 0x00 } ∧
      decodeFixedSense ExecuteError.ReadCommand.as_resp.sense =
        { key := MEDIUM_ERROR, asc := 0x11, ascq := 0x00 } ∧
      decodeFixedSense ExecuteError.InvalidField.as_resp.sense =
        { key := ILLEGAL_REQUEST, asc := 0x24, ascq := 0x00 } ∧
      decodeFixedSense (ExecuteError.Unsupported op).as_resp.sense =
        { key := ILLEGAL_REQUEST, asc := 0x20, ascq := 0x00 } ∧
      decodeFixedSense ExecuteError.Write.as_resp.sense =
        { key := MEDIUM_ERROR, asc := 0x0c, ascq := 0x00 }) ∧
    (ExecuteError.Read.as_resp.status = CHECK_CONDITION ∧
      ExecuteError.ReadCommand.as_resp.status = CHECK_CONDITION ∧
      ExecuteError.InvalidField.as_resp.status = CHECK_CONDITION ∧
      (ExecuteError.Unsupported op).as_resp.status = CHECK_CONDITION ∧
      ExecuteError.Write.as_resp.status = CHECK_CONDITION) ∧
    (ExecuteError.Read.as_resp.sense_len = 18 ∧
      ExecuteError.ReadCommand.as_resp.sense_len = 18 ∧
      ExecuteError.InvalidField.as_resp.sense_len = 18 ∧
      (ExecuteError.Unsupported op).as_resp.sense_len = 18 ∧
      ExecuteError.Write.as_resp.sense_len = 18) :=
  ⟨⟨rfl, rfl, rfl, rfl, rfl⟩, ⟨rfl, rfl, rfl, rfl, rfl⟩, rfl, rfl, rfl, rfl, rfl⟩

/-- C6: for ReadIo and WriteIo the response is the GOOD default with only
resid changed: status GOOD, response VIRTIO_SCSI_S_OK, sense_len 0, sense
all zero, and resid the (saturated) residual count in big-endian bytes; a
residual below 2 to the 32 is carried exactly. -/
theorem c6_io_error_resp_fields (r : Nat) :
    ((ExecuteError.ReadIo r).as_resp =
        { virtio_scsi_cmd_resp_ok with resid := u32BeBytes (satU32 r) } ∧
      (ExecuteError.WriteIo r).as_resp =
        { virtio_scsi_cmd_resp_ok with resid := u32BeBytes (satU32 r) }) ∧
    ((ExecuteError.ReadIo r).as_resp.status = GOOD ∧
      (ExecuteError.ReadIo r).as_resp.response = VIRTIO_SCSI_S_OK ∧
      (ExecuteError.ReadIo r).as_resp.sense_len = 0 ∧
      (ExecuteError.ReadIo r).as_resp.sense = List.replicate 96 0 ∧
      (ExecuteError.WriteIo r).as_resp.status = GOOD ∧
      (ExecuteError.WriteIo r).as_resp.response = VIRTIO_SCSI_S_OK ∧
      (ExecuteError.WriteIo r).as_resp.sense_len = 0 ∧
      (ExecuteError.WriteIo r).as_resp.sense = List.replicate 96 0) ∧
    (r < 2 ^ 32 →
      (ExecuteError.ReadIo r).as_resp.resid = u32BeBytes r ∧
      (ExecuteError.WriteIo r).as_resp.resid = u32BeBytes r) := by
  refine ⟨⟨rfl, rfl⟩, ⟨rfl, rfl, rfl, rfl, rfl, rfl, rfl, rfl⟩, ?_⟩
  intro h
  constructor <;>
    · show u32BeBytes (satU32 r) = u32BeBytes r
      unfold satU32
      rw [if_pos h]

/-- C6 witness at residual 7. -/
theorem c6_io_error_resp_fields_witness :
    (7 : Nat) < 2 ^ 32 ∧
      (ExecuteError.ReadIo 7).as_resp.resid = u32BeBytes 7 ∧
      (ExecuteError.WriteIo 7).as_resp.resid = u32BeBytes 7 :=
  ⟨by decide, (c6_io_error_resp_fields 7).2.2 (by decide)⟩

/-- C9: the residual of ReadIo and WriteIo is saturated into u32 range
before the big-endian conversion: a value below 2 to the 32 is carried
exactly, any larger value becomes u32::MAX. -/
theorem c9_resid_saturation (r : Nat) :
    (r < 2 ^ 32 →
      (ExecuteError.ReadIo r).as_resp.resid = u32BeBytes r ∧
      (ExecuteError.WriteIo r).as_resp.resid = u32BeBytes r) ∧
    (2 ^ 32 ≤ r →
      (ExecuteError.ReadIo r).as_resp.resid = u32BeBytes (2 ^ 32 - 1) ∧
      (ExecuteError.WriteIo r).as_resp.resid = u32BeBytes (2 ^ 32 - 1)) := by
  constructor
  · intro h
    constructor <;>
      · show u32BeBytes (satU32 r) = u32BeBytes r
        unfold satU32
        rw [if_pos h]
  · intro h
    constructor <;>
      · show u32BeBytes (satU32 r) = u32BeBytes (2 ^ 32 - 1)
        unfold satU32
        rw [if_neg (by omega)]

/-- C9 witness: an in-range residual of 5 is carried exactly, and the
out-of-range residual 2 to the 32 plus 7 saturates to u32::MAX whose
big-endian bytes are 255, 255, 255, 255. -/
theorem c9_resid_saturation_witness :
    ((ExecuteError.ReadIo 5).as_resp.resid = u32BeBytes 5 ∧
      (ExecuteError.WriteIo 5).as_resp.resid = u32BeBytes 5) ∧
    ((ExecuteError.ReadIo (2 ^ 32 + 7)).as_resp.resid = u32BeBytes (2 ^ 32 - 1) ∧
      (ExecuteError.WriteIo (2 ^ 32 + 7)).as_resp.resid = u32BeBytes (2 ^ 32 - 1)) :=
  ⟨(c9_resid_saturation 5).1 (by decide),
    (c9_resid_saturation (2 ^ 32 + 7)).2 (by omega)⟩

/-- C4: the fixed-format encoding of any sense triple has length value 18
and 96 physical bytes, places 0x70 at byte 0, the key at byte 2, the
additional length 10 at byte 7, the asc at byte 12, the ascq at byte 13 and
zero everywhere else, and decoding by the fixed-format layout recovers the
original triple. -/
theorem c4_fixed_sense_roundtrip (key asc ascq : Nat) :
    (Sense.as_bytes { key := key, asc := asc, ascq := ascq } true).2 = 18 ∧
    ((Sense.as_bytes { key := key, asc := asc, ascq := ascq } true).1).length = 96 ∧
    (∀ i : Nat, i < 96 →
      ((Sense.as_bytes { key := key, asc := asc, ascq := ascq } true).1).getD i 0 =
        if i = 0 then 0x70
        else if i = 2 then key
        else if i = 7 then 10
        else if i = 12 then asc
        else if i = 13 then ascq
        else 0) ∧
    decodeFixedSense (Sense.as_bytes { key := key, asc := asc, ascq := ascq } true).1 =
      { key := key, asc := asc, ascq := ascq } := by
  refine ⟨rfl, rfl, ?_, rfl⟩
  intro i hi
  interval_cases i <;> rfl

/-- C4 witness: the encoding of the triple (9, 8, 7) carries the asc 8 at
byte 12. -/
theorem c4_fixed_sense_roundtrip_witness :
    ((Sense.as_bytes { key := 9, asc := 8, ascq := 7 } true).1).getD 12 0 =
      if (12 : Nat) = 0 then 0x70
      else if (12 : Nat) = 2 then 9
      else if (12 : Nat) = 7 then 10
      else if (12 : Nat) = 12 then 8
      else if (12 : Nat) = 13 then 7
      else 0 :=
  (c4_fixed_sense_roundtrip 9 8 7).2.2.1 12 (by decide)

/-- C7 evaluated at the failing input: a backing store of 4096 bytes with
block size 512 has highest addressable block 4096 / 512 - 1 = 7, yet
Device::new stores the raw byte count 4096 into max_lba. -/
theorem c7_max_lba_is_byte_length :
    (Device.new { get_len := some 4096 } 0 512 false).map
        (fun d => d.target.max_lba) = some 4096 ∧
    (4096 : Nat) / 512 - 1 = 7 ∧
    (4096 : Nat) ≠ 7 :=
  ⟨rfl, by decide, by decide⟩

/-- C8: for every device state the guest-visible configuration reports
num_queues as the total queue count minus 2, max_channel 0, max_target 255,
max_lun 16383, max_sectors 0xffff and cmd_per_lun 128. -/
theorem c8_config_space_fields (d : Device) :
    d.build_config_space.num_queues = d.queue_sizes.length - 2 ∧
    d.build_config_space.max_channel = 0 ∧
    d.build_config_space.max_target = 255 ∧
    d.build_config_space.max_lun = 16383 ∧
    d.build_config_space.max_sectors = 0xffff ∧
    d.build_config_space.cmd_per_lun = 128 :=
  ⟨rfl, rfl, rfl, rfl, rfl, rfl⟩

/-- C3: an 8-byte LUN address is accepted exactly when byte 0 is 1 and byte
1 is 0; for any other address the processing result does not depend on the
command decoder or executor at all, and the written response is the
bad-target response. -/
theorem c3_lun0_acceptance (lun : Fin 8 → Nat) :
    (Device.is_lun0 lun = true ↔ (lun 0 = 1 ∧ lun 1 = 0)) ∧
    (Device.is_lun0 lun = false →
      ∀ (C D : Type) (decode : List Nat → Except ExecuteError C)
        (exec : C → Except ExecuteError Unit)
        (decode2 : List Nat → Except ExecuteError D)
        (exec2 : D → Except ExecuteError Unit)
        (cdb : List Nat) (wok : Bool) (dw dw2 : Nat),
        Device.execute_request decode exec
            { header := some { lun := lun, cdb := cdb }, respWriteOk := wok,
              dataWritten := dw } =
          Device.execute_request decode2 exec2
            { header := some { lun := lun, cdb := cdb }, respWriteOk := wok,
              dataWritten := dw2 } ∧
        (Device.execute_request decode exec
            { header := some { lun := lun, cdb := cdb }, respWriteOk := true,
              dataWritten := dw }).2 =
          [ChainEvent.respWrite
            { virtio_scsi_cmd_resp_default with
              response := VIRTIO_SCSI_S_BAD_TARGET }]) := by
  constructor
  · unfold Device.is_lun0
    by_cases h : lun 0 = 1 <;> simp [h]
  · intro hf C D decode exec decode2 exec2 cdb wok dw dw2
    constructor <;> simp [Device.execute_request, hf]

/-- C3 witness at the rejected address with bytes 1, 1, 0, 0, 0, 0, 0, 0. -/
theorem c3_lun0_acceptance_witness :
    Device.is_lun0 ![1, 1, 0, 0, 0, 0, 0, 0] = false ∧
    (Device.execute_request (fun _ => Except.ok ()) (fun (_ : Unit) => Except.ok ())
          { header := some { lun := ![1, 1, 0, 0, 0, 0, 0, 0], cdb := [0x28] },
            respWriteOk := true, dataWritten := 0 } =
        Device.execute_request (fun _ => Except.error ExecuteError.InvalidField)
          (fun (_ : Unit) => Except.error ExecuteError.ReadOnly)
          { header := some { lun := ![1, 1, 0, 0, 0, 0, 0, 0], cdb := [0x28] },
            respWriteOk := true, dataWritten := 3 } ∧
      (Device.execute_request (fun _ => Except.ok ()) (fun (_ : Unit) => Except.ok ())
          { header := some { lun := ![1, 1, 0, 0, 0, 0, 0, 0], cdb := [0x28] },
            respWriteOk := true, dataWritten := 0 }).2 =
        [ChainEvent.respWrite
          { virtio_scsi_cmd_resp_default with
            response := VIRTIO_SCSI_S_BAD_TARGET }]) :=
  ⟨by decide,
    (c3_lun0_acceptance ![1, 1, 0, 0, 0, 0, 0, 0]).2 (by decide) Unit Unit
      (fun _ => Except.ok ()) (fun _ => Except.ok ())
      (fun _ => Except.error ExecuteError.InvalidField)
      (fun _ => Except.error ExecuteError.ReadOnly) [0x28] true 0 3⟩

/-- C10: for every rejected (non-LUN0) request the written bad-target
response has every field at its zero default — status GOOD (0x00),
sense_len 0, resid 0, sense all zeros — and only response set to
VIRTIO_SCSI_S_BAD_TARGET. -/
theorem c10_bad_target_frame {C : Type} (decode : List Nat → Except ExecuteError C)
    (exec : C → Except ExecuteError Unit) (lun : Fin 8 → Nat) (cdb : List Nat)
    (dw : Nat) (h : Device.is_lun0 lun = false) :
    (Device.execute_request decode exec
        { header := some { lun := lun, cdb := cdb }, respWriteOk := true,
          dataWritten := dw }).2 =
      [ChainEvent.respWrite
        { sense_len := 0, resid := [0, 0, 0, 0], status_qualifier := 0,
          status := GOOD, response := VIRTIO_SCSI_S_BAD_TARGET,
          sense := List.replicate 96 0 }] := by
  simp [Device.execute_request, h]
  exact ⟨rfl, rfl, rfl, rfl, rfl⟩

/-- C10 witness at the all-zero LUN address. -/
theorem c10_bad_target_frame_witness :
    (Device.execute_request (fun _ => Except.ok ()) (fun (_ : Unit) => Except.ok ())
        { header := some { lun := ![0, 0, 0, 0, 0, 0, 0, 0], cdb := [] },
          respWriteOk := true, dataWritten := 0 }).2 =
      [ChainEvent.respWrite
        { sense_len := 0, resid := [0, 0, 0, 0], status_qualifier := 0,
          status := GOOD, response := VIRTIO_SCSI_S_BAD_TARGET,
          sense := List.replicate 96 0 }] :=
  c10_bad_target_frame (fun _ => Except.ok ()) (fun _ => Except.ok ())
    ![0, 0, 0, 0, 0, 0, 0, 0] [] 0 (by decide)

/-- C2: whenever the response writer accepts the write, processing one
descriptor chain — for every decoder behaviour, every executor behaviour
and every header outcome, including decode and execution failures —
produces exactly one response write, then exactly one mark-used, then
exactly one interrupt, in that order. -/
theorem c2_one_response_then_used_then_interrupt {C : Type}
    (decode : List Nat → Except ExecuteError C)
    (exec : C → Except ExecuteError Unit) (chain : DescriptorChain)
    (h : chain.respWriteOk = true) :
    ∃ resp n, process_one_chain decode exec chain =
      [ChainEvent.respWrite resp, ChainEvent.addUsed n, ChainEvent.interrupt] := by
  obtain ⟨hdr, wok, dw⟩ := chain
  cases wok with
  | false => exact absurd h (by simp)
  | true =>
    cases hdr with
    | none =>
      exact ⟨ExecuteError.Read.as_resp, SIZE_OF_VIRTIO_SCSI_CMD_RESP + dw, rfl⟩
    | some hd =>
      by_cases hl : Device.is_lun0 hd.lun = true
      · rcases hdec : decode hd.cdb with e | command
        · refine ⟨e.as_resp, SIZE_OF_VIRTIO_SCSI_CMD_RESP + dw, ?_⟩
          simp [process_one_chain, process_one_request, Device.execute_request,
            hl, hdec]
        · rcases hex : exec command with e | u
          · refine ⟨e.as_resp, SIZE_OF_VIRTIO_SCSI_CMD_RESP + dw, ?_⟩
            simp [process_one_chain, process_one_request, Device.execute_request,
              hl, hdec, hex]
          · refine ⟨virtio_scsi_cmd_resp_ok, SIZE_OF_VIRTIO_SCSI_CMD_RESP + dw, ?_⟩
            simp [process_one_chain, process_one_request, Device.execute_request,
              hl, hdec, hex]
      · rw [Bool.not_eq_true] at hl
        refine ⟨{ virtio_scsi_cmd_resp_default with
            response := VIRTIO_SCSI_S_BAD_TARGET },
          SIZE_OF_VIRTIO_SCSI_CMD_RESP + dw, ?_⟩
        simp [process_one_chain, process_one_request, Device.execute_request, hl]

/-- C2 witness: a concrete chain whose command decodes and executes
successfully yields exactly the three events in order. -/
theorem c2_one_response_then_used_then_interrupt_witness :
    ∃ resp n,
      process_one_chain (fun _ => Except.ok ()) (fun (_ : Unit) => Except.ok ())
          { header := some { lun := ![1, 0, 0, 0, 0, 0, 0, 0], cdb := [0x00] },
            respWriteOk := true, dataWritten := 0 } =
        [ChainEvent.respWrite resp, ChainEvent.addUsed n, ChainEvent.interrupt] :=
  c2_one_response_then_used_then_interrupt (fun _ => Except.ok ())
    (fun _ => Except.ok ())
    { header := some { lun := ![1, 0, 0, 0, 0, 0, 0, 0], cdb := [0x00] },
      respWriteOk := true, dataWritten := 0 } rfl
